import Mathlib

/-!
Verification of the dashsy task dashboard against its specification.

The repository has two near-duplicate variants of the dashboard:
* `src/script.js` — the document-store (Firestore) variant, modelled in
  namespace `Dashsy.Fire`;
* `src/unnamed/part_000` — the embedded SQLite (sql.js) variant, modelled in
  namespace `Dashsy.Db`.

JavaScript strings are modelled by Lean `String`; `null`/`undefined` field
values are modelled with `Option`/a dedicated sum type as documented on each
definition.  JS string helpers (`trim`, `toLowerCase`, `includes`) are
modelled by explicit list-based functions below so that their behaviour is
fully transparent to the proofs.
-/

namespace Dashsy

/-- Model of JavaScript `String.prototype.trim`: remove leading and trailing
whitespace characters.  (JS trims the Unicode whitespace class; the claims
only involve ASCII whitespace, covered by `Char.isWhitespace`.) -/
def jsTrim (s : String) : String :=
  String.mk (((s.data.dropWhile Char.isWhitespace).reverse.dropWhile
    Char.isWhitespace).reverse)

/-- Model of JavaScript `String.prototype.toLowerCase` (per-character lowering;
sufficient for the ASCII data handled by the dashboard). -/
def jsToLower (s : String) : String :=
  String.mk (s.data.map Char.toLower)

/-- Predicate `leadsList ps cs` is true when the character list `cs` starts with `ps`. -/
def leadsList : List Char → List Char → Bool
  | [], _ => true
  | _ :: _, [] => false
  | p :: ps, c :: cs => p == c && leadsList ps cs

/-- Predicate `occursIn ps cs` is true when `ps` occurs contiguously inside `cs`;
together with `jsToLower` it models JavaScript `String.prototype.includes`. -/
def occursIn (ps : List Char) : List Char → Bool
  | [] => leadsList ps []
  | c :: cs => leadsList ps (c :: cs) || occursIn ps cs

/-- Model of `hay.includes(needle)` on JS strings. -/
def jsIncludes (hay needle : String) : Bool :=
  occursIn needle.data hay.data

namespace Fire

/-! ## Document-store variant (`src/script.js`) -/

/-- A Firestore field value as the dashboard uses it: `null` (also standing
for an absent field, which every truthiness/`trim` check in the source treats
the same way), a string, or a Firestore `Timestamp` (modelled by its seconds
value; any `Timestamp` object is truthy and not a string). -/
inductive FsVal where
  | null : FsVal
  | str : String → FsVal
  | ts : Nat → FsVal
deriving DecidableEq

/-- The unfinished test from `renderTable` (src/script.js:239-245):
`!finishedValue || (typeof finishedValue === 'string' && finishedValue.trim() === '')`.
`null` (and an absent field) is falsy, the empty string is falsy and also
trims to empty, and a `Timestamp` is truthy and not a string. -/
def isUnfinishedVal : FsVal → Bool
  | FsVal.null => true
  | FsVal.str s => jsTrim s == ""
  | FsVal.ts _ => false

/-- The done test from `createTableRow` (src/script.js:269):
`finishedValue && (typeof finishedValue !== 'string' || finishedValue.trim() !== '')`. -/
def isDoneVal : FsVal → Bool
  | FsVal.null => false
  | FsVal.str s => !(jsTrim s == "")
  | FsVal.ts _ => true

/-- A record of the `dashboard_items` collection as read by the dashboard
(`{ id: doc.id, ...doc.data() }`, src/script.js:102, with the column set of
src/script.js:215).  `codeFull` is the grouping key; the source only ever
tests it for truthiness and string equality, so it is modelled as a `String`
with `""` standing for an absent/empty key. -/
structure Item where
  id : String
  insertItem : FsVal
  name : FsVal
  dateRelease : FsVal
  codeSection : FsVal
  codeFull : String
  finished : FsVal
  Rating : FsVal
deriving DecidableEq

/-- The update object passed to `updateDoc`/`batch.update`: an optional new
value for `finished` and for `Rating` (`none` means the field is not part of
the update and keeps its stored value — Firestore merge semantics). -/
structure UpdateData where
  finished : Option FsVal
  Rating : Option FsVal
deriving DecidableEq

/-- Firestore merge-write semantics of `batch.update(doc.ref, dataToUpdate)`
for the two fields the dashboard ever writes. -/
def applyUpdate (it : Item) (u : UpdateData) : Item :=
  { it with finished := u.finished.getD it.finished,
            Rating := u.Rating.getD it.Rating }

/-- A Firestore error object (`error.code`, `error.message`). -/
structure FsError where
  code : String
  message : String
deriving DecidableEq

/-- The page state relevant to the claims: the authoritative backing store
(the Firestore collection), the local cache `dashboardItems`, the `#error`
div (`none` = hidden), the console error/warning log (`console.log` tracing
is not modelled), and the two modals. -/
structure SysState where
  backing : List Item
  cache : List Item
  errorDisplay : Option String
  consoleMessages : List String
  doneModalOpen : Bool
  ratingModalOpen : Bool
deriving DecidableEq

/-- Backing-store I/O operations issued by a write path, in order. -/
inductive StoreOp where
  | queryByCodeFull (key : String)
  | batchCommit (ids : List String) (upd : UpdateData)
  | updateDocOp (id : String) (upd : UpdateData)
deriving DecidableEq

/-- Outcome of `updateItemGroupByCodeFull`.  `missingKey` is the early return
of src/script.js:491-494: `handleError` is called with a single argument, its
`console.error` runs, and then `error.code` dereferences `undefined`,
raising a TypeError that aborts the caller before any I/O. -/
inductive GroupUpdateResult where
  | missingKey
  | notFound
  | committed (n : Nat)
  | failed (e : FsError)
deriving DecidableEq

/-- Embeds `handleError(context, error)` (src/script.js:31-48) when called
with an error object: `console.error` logs the context and the `#error` div
receives the composed message (the `(Code: ...)` part only when `error.code`
is truthy, i.e. a non-empty string). -/
def handleError (s : SysState) (context : String) (code : String) : SysState :=
  { s with
      consoleMessages := s.consoleMessages ++ [context],
      errorDisplay := some ("Error: " ++ context ++ "." ++
        (if code == "" then ""
         else " (Code: " ++ code ++ "). Check Firestore Security Rules and Network.") ++
        " See console for details.") }

/-- Embeds `handleError(context)` called with a single argument
(src/script.js:492): `console.error(context, undefined)` runs, then
`if (error.code)` dereferences `undefined` and raises a TypeError, so the
`#error` div is never written and control leaves the caller. -/
def handleErrorNoObj (s : SysState) (context : String) : SysState :=
  { s with consoleMessages := s.consoleMessages ++ [context] }

/-- Embeds `updateItemGroupByCodeFull` (src/script.js:490-537).

* Empty/absent `codeFullValue` (JS falsy, modelled by `""`): `handleError`
  with a single argument, abort before the query (no `StoreOp` issued).
* Otherwise query `where("codeFull", "==", codeFullValue)`; if the snapshot
  is empty, log a warning, close both modals and return without a write.
* Otherwise batch-update every matching document with `dataToUpdate` and
  commit the batch atomically; `commitErr` is the environment's verdict on
  `batch.commit()` (`none` = success).  On failure the catch block logs the
  error and calls `handleError` with the error object; the batch applies
  nothing and the local cache is never touched on this path. -/
def updateItemGroupByCodeFull (s : SysState) (codeFullValue : String)
    (upd : UpdateData) (commitErr : Option FsError) :
    SysState × GroupUpdateResult × List StoreOp :=
  if codeFullValue = "" then
    (handleErrorNoObj s "Group update failed: No codeFull value provided.",
      GroupUpdateResult.missingKey, [])
  else
    let matching := s.backing.filter (fun it => it.codeFull == codeFullValue)
    if matching.isEmpty then
      ({ s with
          consoleMessages := s.consoleMessages ++
            ["No documents found with codeFull " ++ codeFullValue ++ " to update."],
          doneModalOpen := false, ratingModalOpen := false },
        GroupUpdateResult.notFound, [StoreOp.queryByCodeFull codeFullValue])
    else
      match commitErr with
      | none =>
        ({ s with
            backing := s.backing.map (fun it =>
              if it.codeFull == codeFullValue then applyUpdate it upd else it),
            doneModalOpen := false, ratingModalOpen := false },
          GroupUpdateResult.committed matching.length,
          [StoreOp.queryByCodeFull codeFullValue,
            StoreOp.batchCommit (matching.map Item.id) upd])
      | some e =>
        (handleError
          { s with
              consoleMessages := s.consoleMessages ++
                ["Firestore group update failed for codeFull " ++ codeFullValue,
                  "Error Code: " ++ e.code, "Error Message: " ++ e.message] }
          ("Error updating group for codeFull " ++ codeFullValue ++
            " (Code: " ++ e.code ++ ")")
          e.code,
          GroupUpdateResult.failed e,
          [StoreOp.queryByCodeFull codeFullValue,
            StoreOp.batchCommit (matching.map Item.id) upd])

/-- Embeds the write issued by `handleMarkTaskAsDone` (src/script.js:545-569)
once the clicked item's `codeFull` has been resolved:
`updateItemGroupByCodeFull(codeFullValue, { finished: Timestamp.now() })`. -/
def markGroupDone (s : SysState) (codeFullValue : String) (now : Nat)
    (commitErr : Option FsError) : SysState × GroupUpdateResult × List StoreOp :=
  updateItemGroupByCodeFull s codeFullValue ⟨some (FsVal.ts now), none⟩ commitErr

/-- Outcome of the single-record write `updateTask`. -/
inductive TaskUpdateResult where
  | missingId
  | updated
  | failed (e : FsError)
deriving DecidableEq

/-- Embeds `updateTask` (src/script.js:124-145): missing id aborts via the
single-argument `handleError` (console.error, then TypeError) before any
I/O; otherwise one `updateDoc` is attempted.  On success Firestore merges
the fields into the document with that id and the modals are closed; on
failure the catch block logs the error code and message and calls
`handleError` with the error object.  The local cache is untouched on every
path. -/
def updateTask (s : SysState) (itemId : String) (upd : UpdateData)
    (commitErr : Option FsError) : SysState × TaskUpdateResult × List StoreOp :=
  if itemId = "" then
    (handleErrorNoObj s "Update failed: No item ID provided.",
      TaskUpdateResult.missingId, [])
  else
    match commitErr with
    | none =>
      ({ s with
          backing := s.backing.map (fun it =>
            if it.id == itemId then applyUpdate it upd else it),
          doneModalOpen := false, ratingModalOpen := false },
        TaskUpdateResult.updated, [StoreOp.updateDocOp itemId upd])
    | some e =>
      (handleError
        { s with
            consoleMessages := s.consoleMessages ++
              ["Firestore update failed for item " ++ itemId,
                "Error Code: " ++ e.code, "Error Message: " ++ e.message] }
        ("Error updating item " ++ itemId ++ " (Code: " ++ e.code ++ ")")
        e.code,
        TaskUpdateResult.failed e, [StoreOp.updateDocOp itemId upd])

/-- Embeds the `onSnapshot` success callback of `listenForDataUpdates`
(src/script.js:98-113): the local cache is replaced wholesale by the items
rebuilt from the snapshot, and the error div is cleared. -/
def onSnapshotUpdate (s : SysState) (snapshot : List Item) : SysState :=
  { s with cache := snapshot, errorDisplay := none }

/-- Counts the write operations (batch commits and single-document updates)
in an I/O trace; used to state that a failed write is attempted exactly once
(no automatic retry). -/
def writeOpCount (tr : List StoreOp) : Nat :=
  tr.countP (fun op =>
    match op with
    | StoreOp.queryByCodeFull _ => false
    | StoreOp.batchCommit _ _ => true
    | StoreOp.updateDocOp _ _ => true)

/-- Concrete store for the C1 witness: group "A" has one record, group "B"
one. -/
def exState1 : SysState :=
  ⟨[⟨"d1", FsVal.null, FsVal.null, FsVal.null, FsVal.null, "A", FsVal.null, FsVal.null⟩,
    ⟨"d2", FsVal.null, FsVal.null, FsVal.null, FsVal.null, "B", FsVal.str "x", FsVal.null⟩],
   [], none, [], true, false⟩

/-- Concrete store for the C7 witness. -/
def exState7 : SysState :=
  ⟨[⟨"d1", FsVal.null, FsVal.null, FsVal.null, FsVal.null, "A", FsVal.null, FsVal.null⟩],
   [⟨"d1", FsVal.null, FsVal.null, FsVal.null, FsVal.null, "A", FsVal.null, FsVal.null⟩],
   none, [], true, false⟩

/-- Concrete store for the C10 witness: only group "B" is present. -/
def exState10 : SysState :=
  ⟨[⟨"d2", FsVal.null, FsVal.null, FsVal.null, FsVal.null, "B", FsVal.str "x", FsVal.null⟩],
   [], some "old error", ["old warning"], true, true⟩

/-- Embeds `clearAllMarkings` (src/script.js:748-767).  In the source the
confirmation dialog, the batch initialization and the batch commit are all
elided comments; the only live statement is the loop body
`batch.update(itemRef, { finished: null, Rating: null })`, which references
the undefined identifier `batch`.  With a non-empty `dashboardItems` the
first iteration therefore raises a ReferenceError, which the empty catch
block swallows; with an empty cache the loop never runs.  On either path no
write reaches the backing store, nothing changes and nothing is reported.
The second component records the exception swallowed by the catch block, if
any. -/
def clearAllMarkings (s : SysState) : SysState × Option String :=
  if s.cache.isEmpty then (s, none)
  else (s, some "ReferenceError: batch is not defined")

/-- Concrete store for the C3 failing input: one record with a non-empty
`finished` and a non-empty `Rating`. -/
def exState3 : SysState :=
  ⟨[⟨"d1", FsVal.null, FsVal.null, FsVal.null, FsVal.null, "A",
      FsVal.str "2024-01-01T00:00:00Z", FsVal.str "easy"⟩],
   [⟨"d1", FsVal.null, FsVal.null, FsVal.null, FsVal.null, "A",
      FsVal.str "2024-01-01T00:00:00Z", FsVal.str "easy"⟩],
   none, [], false, false⟩

/-- Model of `String(val ?? '')` for a field value (src/script.js:234): `null`
(or an absent field) becomes the empty string, a string is unchanged and a
Firestore `Timestamp` stringifies to its object rendering (carrying the
seconds value). -/
def fsValToString : FsVal → String
  | FsVal.null => ""
  | FsVal.str s => s
  | FsVal.ts n => "Timestamp(seconds=" ++ toString n ++ ", nanoseconds=0)"

/-- The search string of `renderTable` (src/script.js:234):
`Object.values(item).map(val => String(val ?? '')).join(" ")` over
`{ id: doc.id, ...doc.data() }` in field order. -/
def itemSearchString (it : Item) : String :=
  String.intercalate " "
    [it.id, fsValToString it.insertItem, fsValToString it.name,
      fsValToString it.dateRelease, fsValToString it.codeSection,
      it.codeFull, fsValToString it.finished, fsValToString it.Rating]

/-- The search test of `renderTable` (src/script.js:235):
`currentSearchTerm === "" || itemString.includes(currentSearchTerm.toLowerCase())`
where `itemString` is already lower-cased. -/
def matchesSearch (currentSearchTerm : String) (it : Item) : Bool :=
  currentSearchTerm == "" ||
    jsIncludes (jsToLower (itemSearchString it)) (jsToLower currentSearchTerm)

/-- The item filter of `renderTable` (src/script.js:231-249): keep the items
that match the search term and, when the unfinished toggle is active, are
unfinished (absent, `null`, or empty-after-trim `finished`). -/
def renderTableFilter (items : List Item) (currentSearchTerm : String)
    (filterUnfinishedActive : Bool) : List Item :=
  items.filter (fun item =>
    let ms := matchesSearch currentSearchTerm item
    let isUnfinished := isUnfinishedVal item.finished
    let matchesFilter := !filterUnfinishedActive || isUnfinished
    ms && matchesFilter)

/-- The `dateToFormat` step of the aggregation loop of `updateProgress`
(src/script.js:337-341): a string value containing a comma is split on the
commas, every part trimmed, and the last part used. -/
def lastTimestampPart : FsVal → FsVal
  | FsVal.str s =>
    if s.contains ',' then
      FsVal.str ((((s.splitOn ",").map jsTrim).getLast?).getD "")
    else FsVal.str s
  | v => v

/-- The day keys accumulated into `finishedPerDay` by `updateProgress`
(src/script.js:331-361): one key per finished record whose timestamp
parses.  `dayOf` abstracts `new Date(...)`/`Timestamp.toDate()` together
with the local `YYYY-MM-DD` formatting of src/script.js:345-355; it returns
`none` for an unparsable date, which the loop skips with a warning. -/
def doneDayKeys (dayOf : FsVal → Option String) (items : List Item) : List String :=
  items.filterMap (fun item =>
    if isDoneVal item.finished then dayOf (lastTimestampPart item.finished) else none)

/-- Model of `Object.keys(finishedPerDay).sort()` (src/script.js:368): the distinct
day keys in ascending lexicographic order (on `YYYY-MM-DD` keys this is
chronological order). -/
def chartLabels (ks : List String) : List String :=
  List.insertionSort (fun a b => a ≤ b) ks.dedup

/-- The cumulative loop of `updateProgress` (src/script.js:369-374):
`cumulativeCount += finishedPerDay[label]; cumulativeData.push(cumulativeCount)`. -/
def cumulAux (counts : String → Nat) : List String → Nat → List Nat
  | [], _ => []
  | l :: ls, acc => (acc + counts l) :: cumulAux counts ls (acc + counts l)

/-- The chart series of the document-store `updateProgress`
(src/script.js:367-374): cumulative counts over the sorted distinct day
labels; `finishedPerDay[label]` is the number of finished records whose day
key is `label`.  (The degenerate no-data placeholder of lines 376-379 is
outside the claims.) -/
def chartSeries (ks : List String) : List Nat :=
  cumulAux (fun l => ks.count l) (chartLabels ks) 0

end Fire

namespace Db

/-! ## Embedded-database variant (`src/unnamed/part_000`) -/

/-- A row of the runtime-discovered table, restricted to the three columns
the logic reads: `code_full`, `finished` and `Rating`.  `none` models SQL
NULL (sql.js returns NULL cells as JS `null`); the remaining columns are
display-only and never read by the claims. -/
structure Row where
  code_full : String
  finished : Option String
  Rating : Option String
deriving DecidableEq

/-- Model of `row[finishedIndex] && row[finishedIndex].toString().trim() !== ""`,
the done test used by `loadData` and `createTableRow`
(src/unnamed/part_000:112,148). -/
def rowFinishedDone (r : Row) : Bool :=
  match r.finished with
  | none => false
  | some s => !(jsTrim s == "")

/-- Model of `row.join(" ")` in `loadData` (src/unnamed/part_000:107); `Array.join`
renders NULL cells as the empty string. -/
def rowString (r : Row) : String :=
  String.intercalate " " [r.code_full, r.finished.getD "", r.Rating.getD ""]

/-- The search test of `loadData` (src/unnamed/part_000:108):
`searchTerm === "" || rowString.includes(searchTerm.toLowerCase())` where
`rowString` is already lower-cased. -/
def rowMatchesSearch (searchTerm : String) (r : Row) : Bool :=
  searchTerm == "" ||
    jsIncludes (jsToLower (rowString r)) (jsToLower searchTerm)

/-- The row filter of `loadData` (src/unnamed/part_000:106-115): keep rows
matching the search term; when the unfinished toggle is active, keep only
rows whose `finished` cell is NULL or trims to empty. -/
def loadDataFilter (rows : List Row) (searchTerm : String)
    (filterUnfinishedActive : Bool) : List Row :=
  rows.filter (fun row =>
    let ms := rowMatchesSearch searchTerm row
    let unfinishedOnly := if filterUnfinishedActive then !(rowFinishedDone row) else true
    ms && unfinishedOnly)

/-- The `SELECT finished ... LIMIT 1` step of `markTaskAsDone`
(src/unnamed/part_000:308-312): the `finished` value of the first row whose
`code_full` equals the argument, coerced with `|| ""` — so `""` when no row
matches or the cell is NULL (and `"" || ""` is also `""`). -/
def firstFinished (table : List Row) (codeFull : String) : String :=
  match table.find? (fun r => r.code_full == codeFull) with
  | none => ""
  | some r => r.finished.getD ""

/-- The new `finished` string computed by `markTaskAsDone`
(src/unnamed/part_000:313-318): the fresh ISO timestamp when the existing
value trims to empty, otherwise the existing value with `", " + now`
appended (append-with-history policy). -/
def newFinished (table : List Row) (codeFull : String) (now : String) : String :=
  if jsTrim (firstFinished table codeFull) == "" then now
  else firstFinished table codeFull ++ ", " ++ now

/-- Embeds `markTaskAsDone` (src/unnamed/part_000:303-331):
`UPDATE ... SET finished = ... WHERE code_full = ...` writes the single
value derived from the first matching row to every row sharing the
`code_full`.  (`persistDatabase`, modal closing and the view refresh do not
touch row data.) -/
def markTaskAsDone (table : List Row) (codeFull : String) (now : String) : List Row :=
  table.map (fun r =>
    if r.code_full == codeFull then
      { r with finished := some (newFinished table codeFull now) }
    else r)

/-- Concrete table for the C8 witness: two rows of group "A" whose
`finished` values differ beforehand. -/
def exTable8 : List Row := [⟨"A", some "x", none⟩, ⟨"A", none, none⟩]

/-- Embeds the chart computation of the embedded-database `updateProgress`
(src/unnamed/part_000:180-281).  The aggregation loop (lines 193-204) runs
`finishedPerDay[dateKey] = (finishedPerDay[key] || 0) + 1`, where `key` is
an undefined identifier: reading it raises a ReferenceError on the first
row with a non-empty `finished`, the outer catch logs the error, and no
chart is produced.  Only when no finished row exists does the function
reach the chart, with the fallback label and a zero count; even then its
dataset is the per-day count list (`Tasks Achieved Per Day`,
src/unnamed/part_000:224-225,241-242), not a cumulative series. -/
def updateProgressChart (rows : List Row) : Except String (List String × List Nat) :=
  if rows.any (fun r => rowFinishedDone r) then
    Except.error "ReferenceError: key is not defined"
  else
    Except.ok (["No Tasks Achieved"], [0])

/-- The base64 alphabet used by `btoa`/`atob`. -/
def b64Chars : List Char :=
  ['A', 'B', 'C', 'D', 'E', 'F', 'G', 'H', 'I', 'J', 'K', 'L', 'M',
   'N', 'O', 'P', 'Q', 'R', 'S', 'T', 'U', 'V', 'W', 'X', 'Y', 'Z',
   'a', 'b', 'c', 'd', 'e', 'f', 'g', 'h', 'i', 'j', 'k', 'l', 'm',
   'n', 'o', 'p', 'q', 'r', 's', 't', 'u', 'v', 'w', 'x', 'y', 'z',
   '0', '1', '2', '3', '4', '5', '6', '7', '8', '9', '+', '/']

/-- The alphabet character for a 6-bit group. -/
def b64Char (n : Nat) : Char := b64Chars.getD n 'A'

/-- The 6-bit value of an alphabet character (`none` for a character
outside the alphabet, on which `atob` throws). -/
def b64Index (c : Char) : Option Nat := b64Chars.findIdx? (fun d => d == c)

/-- Model of `btoa` on a byte sequence.  (In `uint8ArrayToBase64` the chunked
`String.fromCharCode` loop builds the latin-1 string whose character codes
are exactly the bytes of the array, in order — chunking by 0x8000 only
batches the calls — and `btoa` encodes that string's character codes.)
Three bytes pack into four alphabet characters; a remainder of one or two
bytes is padded with `=`. -/
def btoaBytes : List Nat → List Char
  | [] => []
  | [b1] => [b64Char (b1 / 4), b64Char (b1 % 4 * 16), '=', '=']
  | [b1, b2] =>
    [b64Char (b1 / 4), b64Char (b1 % 4 * 16 + b2 / 16), b64Char (b2 % 16 * 4), '=']
  | b1 :: b2 :: b3 :: rest =>
    b64Char (b1 / 4) :: b64Char (b1 % 4 * 16 + b2 / 16) ::
      b64Char (b2 % 16 * 4 + b3 / 64) :: b64Char (b3 % 64) :: btoaBytes rest

/-- Model of `atob` on btoa-shaped input: groups of four alphabet characters decode
to three bytes, with `=` padding allowed only at the very end; any other
input raises (`none`).  (Browser `atob` additionally strips ASCII
whitespace and tolerates a missing final padding; `btoa` never produces
such strings, so the difference is invisible to the round trip.) -/
def atobBytes : List Char → Option (List Nat)
  | [] => some []
  | c1 :: c2 :: c3 :: c4 :: rest =>
    match b64Index c1, b64Index c2 with
    | some i1, some i2 =>
      if c3 = '=' then
        if c4 = '=' ∧ rest = [] then some [i1 * 4 + i2 / 16] else none
      else
        match b64Index c3 with
        | some i3 =>
          if c4 = '=' then
            if rest = [] then some [i1 * 4 + i2 / 16, i2 % 16 * 16 + i3 / 4] else none
          else
            match b64Index c4 with
            | some i4 =>
              (atobBytes rest).map (fun tl =>
                (i1 * 4 + i2 / 16) :: (i2 % 16 * 16 + i3 / 4) :: (i3 % 4 * 64 + i4) :: tl)
            | none => none
        | none => none
    | _, _ => none
  | _ => none

/-- Embeds `uint8ArrayToBase64` (src/unnamed/part_000:2-14): the byte array
(bytes as `Nat` values, each < 256) is turned into a latin-1 string by the
chunked `String.fromCharCode` loop and encoded with `btoa`; the result is
modelled as its character list. -/
def uint8ArrayToBase64 (u8Arr : List Nat) : List Char := btoaBytes u8Arr

/-- Embeds `base64ToUint8Array` (src/unnamed/part_000:16-24): `atob`, then
`charCodeAt` per character — the identity on the byte values `atob`
produced.  `atob` throws on malformed input, modelled by `none`. -/
def base64ToUint8Array (base64 : List Char) : Option (List Nat) := atobBytes base64

end Db

end Dashsy

namespace Dashsy.Fire

/-- C6: calling the group update with an empty/absent groupKey reports the
"no codeFull value provided" condition (via `handleError`, whose
`console.error` fires before the TypeError aborts the operation) and issues
no backing-store I/O at all: no query, no write, and both the backing store
and the local cache are untouched. -/
theorem group_update_empty_key_reports_and_aborts_before_io
    (s : SysState) (upd : UpdateData) (commitErr : Option FsError) :
    (updateItemGroupByCodeFull s "" upd commitErr).1.backing = s.backing ∧
    (updateItemGroupByCodeFull s "" upd commitErr).1.cache = s.cache ∧
    (updateItemGroupByCodeFull s "" upd commitErr).1.consoleMessages =
      s.consoleMessages ++ ["Group update failed: No codeFull value provided."] ∧
    (updateItemGroupByCodeFull s "" upd commitErr).2.1 =
      GroupUpdateResult.missingKey ∧
    (updateItemGroupByCodeFull s "" upd commitErr).2.2 = ([] : List StoreOp) :=
  ⟨rfl, rfl, rfl, rfl, rfl⟩

/-- On every path the group update leaves the local cache untouched. -/
theorem updateItemGroup_cache_eq (s : SysState) (key : String) (upd : UpdateData)
    (commitErr : Option FsError) :
    (updateItemGroupByCodeFull s key upd commitErr).1.cache = s.cache := by
  by_cases hk : key = ""
  · subst hk; rfl
  · by_cases hm : (s.backing.filter (fun it => it.codeFull == key)).isEmpty = true
    · simp [updateItemGroupByCodeFull, hk, hm]
    · cases commitErr with
      | none => simp [updateItemGroupByCodeFull, hk, hm]
      | some e => simp [updateItemGroupByCodeFull, handleError, hk, hm]

/-- Backing store after a successful commit: every matching document is
merged with the update object, all others are untouched. -/
theorem updateItemGroup_backing_commit (s : SysState) (key : String) (upd : UpdateData)
    (hk : ¬ key = "")
    (hm : (s.backing.filter (fun it => it.codeFull == key)).isEmpty = false) :
    (updateItemGroupByCodeFull s key upd none).1.backing =
      s.backing.map (fun it =>
        if it.codeFull == key then applyUpdate it upd else it) := by
  simp [updateItemGroupByCodeFull, hk, hm]

/-- Group-update result after a successful commit. -/
theorem updateItemGroup_result_commit (s : SysState) (key : String) (upd : UpdateData)
    (hk : ¬ key = "")
    (hm : (s.backing.filter (fun it => it.codeFull == key)).isEmpty = false) :
    (updateItemGroupByCodeFull s key upd none).2.1 =
      GroupUpdateResult.committed
        (s.backing.filter (fun it => it.codeFull == key)).length := by
  simp [updateItemGroupByCodeFull, hk, hm]

/-- When the query matches no document, the backing store is unchanged. -/
theorem updateItemGroup_backing_noMatch (s : SysState) (key : String)
    (upd : UpdateData) (commitErr : Option FsError)
    (hm : (s.backing.filter (fun it => it.codeFull == key)).isEmpty = true) :
    (updateItemGroupByCodeFull s key upd commitErr).1.backing = s.backing := by
  by_cases hk : key = ""
  · subst hk; rfl
  · simp [updateItemGroupByCodeFull, hk, hm]

/-- C1: for a groupKey present in N ≥ 1 records, `markGroupDone` commits a
batch covering exactly the N matching records; afterwards every matching
record carries the fresh timestamp — a non-empty, "done" `finished` value —
with all of its other fields intact, and every record whose groupKey differs
is completely unchanged. -/
theorem markGroupDone_marks_exactly_the_group (s : SysState) (key : String) (now : Nat)
    (hkey : key ≠ "")
    (hN : 0 < (s.backing.filter (fun it => it.codeFull == key)).length) :
    (markGroupDone s key now none).2.1 =
      GroupUpdateResult.committed
        (s.backing.filter (fun it => it.codeFull == key)).length ∧
    (markGroupDone s key now none).1.backing.length = s.backing.length ∧
    ∀ i (h1 : i < s.backing.length)
      (h2 : i < (markGroupDone s key now none).1.backing.length),
      (s.backing[i].codeFull = key →
        (markGroupDone s key now none).1.backing[i] =
          { s.backing[i] with finished := FsVal.ts now } ∧
        isDoneVal ((markGroupDone s key now none).1.backing[i]).finished = true) ∧
      (s.backing[i].codeFull ≠ key →
        (markGroupDone s key now none).1.backing[i] = s.backing[i]) := by
  have hm : (s.backing.filter (fun it => it.codeFull == key)).isEmpty = false := by
    cases hfe : s.backing.filter (fun it => it.codeFull == key) with
    | nil => rw [hfe] at hN; simp at hN
    | cons a l => simp
  have hb : (markGroupDone s key now none).1.backing =
      s.backing.map (fun it =>
        if it.codeFull == key then
          applyUpdate it ⟨some (FsVal.ts now), none⟩ else it) := by
    simpa [markGroupDone] using
      updateItemGroup_backing_commit s key ⟨some (FsVal.ts now), none⟩ hkey hm
  refine ⟨by simpa [markGroupDone] using
      updateItemGroup_result_commit s key ⟨some (FsVal.ts now), none⟩ hkey hm,
    by rw [hb]; simp, ?_⟩
  intro i h1 h2
  have hgi : (markGroupDone s key now none).1.backing[i] =
      (if s.backing[i].codeFull == key then
        applyUpdate s.backing[i] ⟨some (FsVal.ts now), none⟩ else s.backing[i]) := by
    have h2' : i < (s.backing.map (fun it =>
        if it.codeFull == key then
          applyUpdate it ⟨some (FsVal.ts now), none⟩ else it)).length := by
      simpa using h1
    calc (markGroupDone s key now none).1.backing[i]
        = (s.backing.map (fun it =>
            if it.codeFull == key then
              applyUpdate it ⟨some (FsVal.ts now), none⟩ else it))[i] := by
          congr 1
      _ = _ := List.getElem_map _
  constructor
  · intro hc
    have hc' : (s.backing[i].codeFull == key) = true := by simpa using hc
    rw [hgi, if_pos hc']
    exact ⟨by simp [applyUpdate], by simp [applyUpdate, isDoneVal]⟩
  · intro hc
    have hc' : (s.backing[i].codeFull == key) = false := by simpa using hc
    rw [hgi, if_neg (by simp [hc'])]

theorem markGroupDone_marks_exactly_the_group_witness :
    ("A" : String) ≠ "" ∧
    0 < (exState1.backing.filter (fun it => it.codeFull == "A")).length ∧
    (markGroupDone exState1 "A" 5 none).2.1 = GroupUpdateResult.committed 1 :=
  ⟨by decide, by decide,
    (markGroupDone_marks_exactly_the_group exState1 "A" 5 (by decide)
      (by decide)).1.trans (by decide)⟩

/-- C2: `markGroupDone` is idempotent with respect to doneness — applying it
twice (with possibly different timestamps) leaves every record with the same
"is-done" boolean as applying it once; no further effects accumulate in the
backing store. -/
theorem markGroupDone_idempotent_doneness (s : SysState) (key : String)
    (now1 now2 : Nat) :
    ((markGroupDone (markGroupDone s key now1 none).1 key now2 none).1.backing.map
        (fun it => isDoneVal it.finished)) =
      ((markGroupDone s key now1 none).1.backing.map
        (fun it => isDoneVal it.finished)) := by
  by_cases hk : key = ""
  · subst hk; rfl
  · by_cases hm : (s.backing.filter (fun it => it.codeFull == key)).isEmpty = true
    · have h1 : (markGroupDone s key now1 none).1.backing = s.backing :=
        updateItemGroup_backing_noMatch s key _ none hm
      have hm2 : ((markGroupDone s key now1 none).1.backing.filter
          (fun it => it.codeFull == key)).isEmpty = true := by rw [h1]; exact hm
      have h2 : (markGroupDone (markGroupDone s key now1 none).1 key now2 none).1.backing
          = (markGroupDone s key now1 none).1.backing :=
        updateItemGroup_backing_noMatch _ key _ none hm2
      rw [h2]
    · have hm' : (s.backing.filter (fun it => it.codeFull == key)).isEmpty = false := by
        simpa using hm
      have h1 : (markGroupDone s key now1 none).1.backing =
          s.backing.map (fun it =>
            if it.codeFull == key then
              applyUpdate it ⟨some (FsVal.ts now1), none⟩ else it) := by
        simpa [markGroupDone] using
          updateItemGroup_backing_commit s key ⟨some (FsVal.ts now1), none⟩ hk hm'
      have hx : ∃ x ∈ s.backing, x.codeFull == key := by
        simpa [List.isEmpty_iff, List.filter_eq_nil_iff] using hm'
      obtain ⟨x, hxmem, hxp⟩ := hx
      have hm2 : ((markGroupDone s key now1 none).1.backing.filter
          (fun it => it.codeFull == key)).isEmpty = false := by
        rw [h1]
        refine List.isEmpty_eq_false.mpr (List.ne_nil_of_mem (a :=
          applyUpdate x ⟨some (FsVal.ts now1), none⟩) ?_)
        refine List.mem_filter.mpr ⟨?_, by simp [applyUpdate, hxp]⟩
        have : applyUpdate x ⟨some (FsVal.ts now1), none⟩ =
            (fun it => if it.codeFull == key then
              applyUpdate it ⟨some (FsVal.ts now1), none⟩ else it) x := by
          simp [hxp]
        rw [this]
        exact List.mem_map_of_mem _ hxmem
      have h2 : (markGroupDone (markGroupDone s key now1 none).1 key now2 none).1.backing =
          (markGroupDone s key now1 none).1.backing.map (fun it =>
            if it.codeFull == key then
              applyUpdate it ⟨some (FsVal.ts now2), none⟩ else it) := by
        simpa [markGroupDone] using
          updateItemGroup_backing_commit (markGroupDone s key now1 none).1 key
            ⟨some (FsVal.ts now2), none⟩ hk hm2
      rw [h2, h1]
      simp only [List.map_map]
      refine List.map_eq_map_iff.mpr ?_
      intro it _
      by_cases hc : it.codeFull = key
      · simp [applyUpdate, hc, isDoneVal]
      · simp [applyUpdate, hc, isDoneVal]

/-- C7: a failing backing-store write (group or single) logs the error code
and message, surfaces a message on the `#error` div, is attempted exactly
once (no automatic retry), and leaves both the backing store and the local
cache unchanged; the group write path never touches the cache on any
outcome, and only the subsequent authoritative snapshot refresh replaces
the cache. -/
theorem failed_write_reports_and_leaves_cache (s : SysState) (key itemId : String)
    (upd : UpdateData) (e : FsError)
    (hkey : key ≠ "")
    (hm : (s.backing.filter (fun it => it.codeFull == key)).isEmpty = false)
    (hid : itemId ≠ "") :
    ((updateItemGroupByCodeFull s key upd (some e)).1.backing = s.backing ∧
      (updateItemGroupByCodeFull s key upd (some e)).1.cache = s.cache ∧
      (updateItemGroupByCodeFull s key upd (some e)).1.errorDisplay.isSome = true ∧
      (updateItemGroupByCodeFull s key upd (some e)).1.consoleMessages =
        s.consoleMessages ++
          ["Firestore group update failed for codeFull " ++ key,
            "Error Code: " ++ e.code, "Error Message: " ++ e.message,
            "Error updating group for codeFull " ++ key ++
              " (Code: " ++ e.code ++ ")"] ∧
      writeOpCount (updateItemGroupByCodeFull s key upd (some e)).2.2 = 1) ∧
    ((updateTask s itemId upd (some e)).1.backing = s.backing ∧
      (updateTask s itemId upd (some e)).1.cache = s.cache ∧
      (updateTask s itemId upd (some e)).1.errorDisplay.isSome = true ∧
      writeOpCount (updateTask s itemId upd (some e)).2.2 = 1) ∧
    (∀ commitErr : Option FsError,
      (updateItemGroupByCodeFull s key upd commitErr).1.cache = s.cache) ∧
    (∀ snapshot : List Item, (onSnapshotUpdate s snapshot).cache = snapshot) := by
  refine ⟨⟨?_, ?_, ?_, ?_, ?_⟩, ⟨?_, ?_, ?_, ?_⟩,
    fun commitErr => updateItemGroup_cache_eq s key upd commitErr, fun _ => rfl⟩
  · simp [updateItemGroupByCodeFull, handleError, hkey, hm]
  · simp [updateItemGroupByCodeFull, handleError, hkey, hm]
  · simp [updateItemGroupByCodeFull, handleError, hkey, hm]
  · simp [updateItemGroupByCodeFull, handleError, hkey, hm]
  · simp [updateItemGroupByCodeFull, handleError, hkey, hm, writeOpCount]
  · simp [updateTask, handleError, hid]
  · simp [updateTask, handleError, hid]
  · simp [updateTask, handleError, hid]
  · simp [updateTask, handleError, hid, writeOpCount]

theorem failed_write_reports_and_leaves_cache_witness :
    ("A" : String) ≠ "" ∧
    (exState7.backing.filter (fun it => it.codeFull == "A")).isEmpty = false ∧
    ("d1" : String) ≠ "" ∧
    (updateItemGroupByCodeFull exState7 "A" ⟨some (FsVal.ts 7), none⟩
      (some ⟨"permission-denied", "Missing or insufficient permissions."⟩)).1.cache =
      exState7.cache :=
  ⟨by decide, by decide, by decide,
    ((failed_write_reports_and_leaves_cache exState7 "A" "d1"
      ⟨some (FsVal.ts 7), none⟩
      ⟨"permission-denied", "Missing or insufficient permissions."⟩
      (by decide) (by decide) (by decide)).1).2.1⟩

/-- C10: a group update with a non-empty groupKey matching zero records
performs no write, reports nothing to the user-visible error surface,
leaves every record and the cache unchanged, logs exactly one warning and
closes both modals. -/
theorem group_update_no_match_is_noop (s : SysState) (key : String)
    (upd : UpdateData) (commitErr : Option FsError)
    (hkey : key ≠ "")
    (hm : (s.backing.filter (fun it => it.codeFull == key)).isEmpty = true) :
    (updateItemGroupByCodeFull s key upd commitErr).1.backing = s.backing ∧
    (updateItemGroupByCodeFull s key upd commitErr).1.cache = s.cache ∧
    (updateItemGroupByCodeFull s key upd commitErr).1.errorDisplay = s.errorDisplay ∧
    (updateItemGroupByCodeFull s key upd commitErr).1.consoleMessages =
      s.consoleMessages ++
        ["No documents found with codeFull " ++ key ++ " to update."] ∧
    (updateItemGroupByCodeFull s key upd commitErr).1.doneModalOpen = false ∧
    (updateItemGroupByCodeFull s key upd commitErr).1.ratingModalOpen = false ∧
    (updateItemGroupByCodeFull s key upd commitErr).2.1 = GroupUpdateResult.notFound ∧
    writeOpCount (updateItemGroupByCodeFull s key upd commitErr).2.2 = 0 := by
  refine ⟨?_, ?_, ?_, ?_, ?_, ?_, ?_, ?_⟩ <;>
    simp [updateItemGroupByCodeFull, hkey, hm, writeOpCount]

theorem group_update_no_match_is_noop_witness :
    ("A" : String) ≠ "" ∧
    (exState10.backing.filter (fun it => it.codeFull == "A")).isEmpty = true ∧
    (updateItemGroupByCodeFull exState10 "A" ⟨some (FsVal.ts 7), none⟩ none).2.1 =
      GroupUpdateResult.notFound :=
  ⟨by decide, by decide,
    (group_update_no_match_is_noop exState10 "A" ⟨some (FsVal.ts 7), none⟩ none
      (by decide) (by decide)).2.2.2.2.2.2.1⟩

end Dashsy.Fire

namespace Dashsy.Fire

/-- C3 (evidence for the code bug): on a store with one marked record,
`clearAllMarkings` leaves the state bit-for-bit unchanged — the record
still has a non-empty `finished` and a non-empty `Rating` — because the
batch initialization and commit are commented out in the source, the loop
body references the undefined identifier `batch`, and the resulting
ReferenceError is swallowed by the empty catch block. -/
theorem clearAllMarkings_clears_nothing :
    (clearAllMarkings exState3).1 = exState3 ∧
    ((clearAllMarkings exState3).1.backing.filter
      (fun it => isDoneVal it.finished)).length = 1 ∧
    ((clearAllMarkings exState3).1.backing.filter
      (fun it => isDoneVal it.Rating)).length = 1 ∧
    (clearAllMarkings exState3).2 = some "ReferenceError: batch is not defined" :=
  ⟨rfl, by decide, by decide, rfl⟩

/-- C4: with the unfinished toggle active, both variants' filters return
exactly the unfinished subset (absent/NULL/empty-after-trim `finished`)
when the search term is empty, and with a search term exactly the
intersection of the search-matching subset and the unfinished subset. -/
theorem unfinished_filter_is_exact_intersection (items : List Item)
    (rows : List Db.Row) (term : String) :
    renderTableFilter items term true =
      (items.filter (fun it => matchesSearch term it)).filter
        (fun it => isUnfinishedVal it.finished) ∧
    renderTableFilter items "" true =
      items.filter (fun it => isUnfinishedVal it.finished) ∧
    Db.loadDataFilter rows term true =
      (rows.filter (fun r => Db.rowMatchesSearch term r)).filter
        (fun r => !Db.rowFinishedDone r) ∧
    Db.loadDataFilter rows "" true =
      rows.filter (fun r => !Db.rowFinishedDone r) := by
  refine ⟨?_, ?_, ?_, ?_⟩
  · simp [renderTableFilter, List.filter_filter, Bool.and_comm]
  · simp [renderTableFilter, matchesSearch]
  · simp [Db.loadDataFilter, List.filter_filter, Bool.and_comm]
  · simp [Db.loadDataFilter, Db.rowMatchesSearch]

/-- Length of the cumulative series equals the number of labels. -/
theorem cumulAux_length (counts : String → Nat) :
    ∀ (ls : List String) (acc : Nat), (cumulAux counts ls acc).length = ls.length
  | [], _ => rfl
  | _ :: ls, acc => by simp [cumulAux, cumulAux_length counts ls]

/-- Entry `i` of the cumulative loop is the accumulator plus the sum of the
per-label counts up to and including label `i`. -/
theorem cumulAux_getElem (counts : String → Nat) :
    ∀ (ls : List String) (acc i : Nat) (h : i < (cumulAux counts ls acc).length),
      (cumulAux counts ls acc)[i] = acc + ((ls.take (i + 1)).map counts).sum
  | [], _, i, h => by simp [cumulAux] at h
  | l :: ls, acc, 0, h => by simp [cumulAux]
  | l :: ls, acc, i + 1, h => by
    have h2 : i < (cumulAux counts ls (acc + counts l)).length := by
      simpa [cumulAux] using h
    simp only [cumulAux, List.getElem_cons_succ]
    rw [cumulAux_getElem counts ls (acc + counts l) i h2]
    simp only [List.take_succ_cons, List.map_cons, List.sum_cons]
    omega

/-- The cumulative loop produces a monotonically non-decreasing list. -/
theorem cumulAux_chain (counts : String → Nat) :
    ∀ (ls : List String) (acc : Nat), List.Chain' (· ≤ ·) (cumulAux counts ls acc)
  | [], _ => List.chain'_nil
  | [_], _ => List.chain'_singleton _
  | l1 :: l2 :: ls, acc => by
    have ih := cumulAux_chain counts (l2 :: ls) (acc + counts l1)
    simp only [cumulAux] at ih ⊢
    exact List.Chain'.cons (by omega) ih

/-- In a strictly increasing list, the elements `≤` the `i`-th one are
exactly the first `i + 1`. -/
theorem pairwise_filter_le_take :
    ∀ (ls : List String), ls.Pairwise (· < ·) →
      ∀ (i : Nat) (h : i < ls.length),
        ls.filter (fun x => decide (x ≤ ls[i])) = ls.take (i + 1)
  | [], _, i, h => by simp at h
  | a :: t, hp, 0, h => by
    have ht : ∀ x ∈ t, ¬(x ≤ a) := fun x hx =>
      not_le.mpr ((List.pairwise_cons.mp hp).1 x hx)
    simp only [List.getElem_cons_zero, List.filter_cons]
    rw [if_pos (by simp)]
    rw [List.filter_eq_nil_iff.mpr (fun x hx => by simpa using ht x hx)]
    simp
  | a :: t, hp, i + 1, h => by
    obtain ⟨hhead, htail⟩ := List.pairwise_cons.mp hp
    have hlen : i < t.length := by simpa using h
    have hle : a ≤ t[i] := le_of_lt (hhead _ (List.getElem_mem hlen))
    simp only [List.getElem_cons_succ, List.filter_cons, List.take_succ_cons]
    rw [if_pos (by simpa using hle), pairwise_filter_le_take t htail i hlen]

/-- Lemma: `countP` of "day at most label i" over the raw day keys equals the sum of
the per-label counts of the first `i + 1` sorted distinct labels. -/
theorem countP_le_eq_sum_take (ks : List String) (i : Nat)
    (h : i < (chartLabels ks).length) :
    ks.countP (fun d => decide (d ≤ (chartLabels ks)[i])) =
      (((chartLabels ks).take (i + 1)).map (fun x => ks.count x)).sum := by
  have hperm : List.Perm (chartLabels ks) ks.dedup := List.perm_insertionSort _ _
  have hsorted : (chartLabels ks).Sorted (fun a b => a ≤ b) :=
    List.sorted_insertionSort _ _
  have hnodup : (chartLabels ks).Nodup := hperm.nodup_iff.mpr (List.nodup_dedup ks)
  have hlt : (chartLabels ks).Pairwise (· < ·) :=
    (List.Pairwise.and hsorted hnodup).imp (fun hab => lt_of_le_of_ne hab.1 hab.2)
  have hstep :
      ((ks.dedup.filter (fun d => decide (d ≤ (chartLabels ks)[i]))).map
        (fun x => ks.count x)).sum =
      ks.countP (fun d => decide (d ≤ (chartLabels ks)[i])) :=
    List.sum_map_count_dedup_filter_eq_countP _ ks
  have hpf : List.Perm
      ((chartLabels ks).filter (fun d => decide (d ≤ (chartLabels ks)[i])))
      (ks.dedup.filter (fun d => decide (d ≤ (chartLabels ks)[i]))) :=
    hperm.filter _
  have hsum :
      (((chartLabels ks).filter (fun d => decide (d ≤ (chartLabels ks)[i]))).map
        (fun x => ks.count x)).sum =
      ks.countP (fun d => decide (d ≤ (chartLabels ks)[i])) := by
    rw [← hstep]; exact (hpf.map _).sum_eq
  rw [← hsum, pairwise_filter_le_take _ hlt i h]

/-- The chart series at each label equals the count of day keys up to and
including that label. -/
theorem chartSeries_eq_running_total (ks : List String) :
    chartSeries ks =
      (chartLabels ks).map (fun L => ks.countP (fun d => decide (d ≤ L))) := by
  refine List.ext_getElem ?_ ?_
  · simp [chartSeries, cumulAux_length]
  · intro i h1 h2
    have hlen : i < (chartLabels ks).length := by
      simpa using h2
    calc (chartSeries ks)[i]
        = 0 + (((chartLabels ks).take (i + 1)).map (fun l => ks.count l)).sum :=
          cumulAux_getElem _ _ _ _ h1
      _ = ks.countP (fun d => decide (d ≤ (chartLabels ks)[i])) := by
          rw [countP_le_eq_sum_take ks i hlen]; omega
      _ = ((chartLabels ks).map (fun L => ks.countP (fun d => decide (d ≤ L))))[i] := by
          rw [List.getElem_map]

/-- C5 (amended to the document-store variant): for any finished records
and any day-key assignment, the chart series of `updateProgress` equals, at
each sorted distinct day label, the running total of finished-record day
keys up to and including that day, and the series is monotonically
non-decreasing. -/
theorem chart_cumulative_running_total_and_monotone
    (dayOf : FsVal → Option String) (items : List Item) :
    chartSeries (doneDayKeys dayOf items) =
      (chartLabels (doneDayKeys dayOf items)).map
        (fun L => (doneDayKeys dayOf items).countP (fun d => decide (d ≤ L))) ∧
    List.Chain' (· ≤ ·) (chartSeries (doneDayKeys dayOf items)) :=
  ⟨chartSeries_eq_running_total _, cumulAux_chain _ _ _⟩

end Dashsy.Fire

namespace Dashsy.Db

/-- C5 counterexample: with a single record finished on 2024-01-02 the
embedded-database `updateProgress` aborts with a ReferenceError (the
aggregation loop reads the undefined identifier `key`) and produces no
series at all, so no day of its chart carries the running total 1 that the
claim requires. -/
theorem updateProgressChart_errors_on_finished_rows :
    updateProgressChart [⟨"A", some "2024-01-02T10:00:00.000Z", none⟩] =
      Except.error "ReferenceError: key is not defined" ∧
    updateProgressChart [⟨"A", some "2024-01-02T10:00:00.000Z", none⟩] ≠
      Except.ok (["2024-01-02"], [1]) := by
  have h : updateProgressChart [⟨"A", some "2024-01-02T10:00:00.000Z", none⟩] =
      Except.error "ReferenceError: key is not defined" := rfl
  exact ⟨h, by rw [h]; exact fun hcon => Except.noConfusion hcon⟩

/-- C8: after `markTaskAsDone`, every row of the group stores the identical
`finished` string derived (via the `LIMIT 1` lookup) from the first
matching row, even when the group's `finished` values differed
beforehand. -/
theorem markTaskAsDone_uniformizes_group (table : List Row)
    (codeFull now : String) :
    ∀ r ∈ markTaskAsDone table codeFull now, r.code_full = codeFull →
      r.finished = some (newFinished table codeFull now) := by
  intro r hr hc
  rcases List.mem_map.mp hr with ⟨r0, hr0, heq⟩
  by_cases h0 : (r0.code_full == codeFull) = true
  · rw [← heq]
    simp [h0]
  · rw [← heq] at hc
    rw [if_neg (by simpa using h0)] at hc
    exact absurd hc (by simpa using h0)

theorem markTaskAsDone_uniformizes_group_witness :
    (⟨"A", some "x, T", none⟩ : Row) ∈ markTaskAsDone exTable8 "A" "T" ∧
    (⟨"A", some "x, T", none⟩ : Row).finished = some (newFinished exTable8 "A" "T") :=
  ⟨by decide,
    markTaskAsDone_uniformizes_group exTable8 "A" "T" ⟨"A", some "x, T", none⟩
      (by decide) (by decide)⟩

/-- Every 6-bit value decodes back from its alphabet character. -/
theorem b64Index_b64Char : ∀ n, n < 64 → b64Index (b64Char n) = some n := by decide

/-- No alphabet character is the padding character. -/
theorem b64Char_ne_pad : ∀ n, n < 64 → ¬(b64Char n = '=') := by decide

/-- C9: the persistence encoding round-trips — decoding the base64 encoding
of any byte array restores the array exactly, so the serialized database
image reloads bit-for-bit. -/
theorem base64_roundTrip : ∀ (a : List Nat), (∀ b ∈ a, b < 256) →
    base64ToUint8Array (uint8ArrayToBase64 a) = some a
  | [], _ => rfl
  | [b1], h => by
    have h1 : b1 < 256 := h b1 (by simp)
    have e1 : b64Index (b64Char (b1 / 4)) = some (b1 / 4) :=
      b64Index_b64Char _ (by omega)
    have e2 : b64Index (b64Char (b1 % 4 * 16)) = some (b1 % 4 * 16) :=
      b64Index_b64Char _ (by omega)
    show atobBytes (btoaBytes [b1]) = some [b1]
    simp only [btoaBytes, atobBytes, e1, e2]
    simp
    omega
  | [b1, b2], h => by
    have h1 : b1 < 256 := h b1 (by simp)
    have h2 : b2 < 256 := h b2 (by simp)
    have e1 : b64Index (b64Char (b1 / 4)) = some (b1 / 4) :=
      b64Index_b64Char _ (by omega)
    have e2 : b64Index (b64Char (b1 % 4 * 16 + b2 / 16)) =
        some (b1 % 4 * 16 + b2 / 16) := b64Index_b64Char _ (by omega)
    have e3 : b64Index (b64Char (b2 % 16 * 4)) = some (b2 % 16 * 4) :=
      b64Index_b64Char _ (by omega)
    have n3 : ¬(b64Char (b2 % 16 * 4) = '=') := b64Char_ne_pad _ (by omega)
    show atobBytes (btoaBytes [b1, b2]) = some [b1, b2]
    simp only [btoaBytes, atobBytes, e1, e2, e3, if_neg n3]
    simp
    constructor
    · omega
    · omega
  | b1 :: b2 :: b3 :: rest, h => by
    have h1 : b1 < 256 := h b1 (by simp)
    have h2 : b2 < 256 := h b2 (by simp)
    have h3 : b3 < 256 := h b3 (by simp)
    have e1 : b64Index (b64Char (b1 / 4)) = some (b1 / 4) :=
      b64Index_b64Char _ (by omega)
    have e2 : b64Index (b64Char (b1 % 4 * 16 + b2 / 16)) =
        some (b1 % 4 * 16 + b2 / 16) := b64Index_b64Char _ (by omega)
    have e3 : b64Index (b64Char (b2 % 16 * 4 + b3 / 64)) =
        some (b2 % 16 * 4 + b3 / 64) := b64Index_b64Char _ (by omega)
    have e4 : b64Index (b64Char (b3 % 64)) = some (b3 % 64) :=
      b64Index_b64Char _ (by omega)
    have n3 : ¬(b64Char (b2 % 16 * 4 + b3 / 64) = '=') := b64Char_ne_pad _ (by omega)
    have n4 : ¬(b64Char (b3 % 64) = '=') := b64Char_ne_pad _ (by omega)
    have ih : atobBytes (btoaBytes rest) = some rest :=
      base64_roundTrip rest (fun b hb => h b (by simp [hb]))
    show atobBytes (btoaBytes (b1 :: b2 :: b3 :: rest)) = some (b1 :: b2 :: b3 :: rest)
    simp only [btoaBytes, atobBytes, e1, e2, e3, e4, if_neg n3, if_neg n4, ih]
    simp
    refine ⟨by omega, by omega, by omega⟩

theorem base64_roundTrip_witness :
    (∀ b ∈ [0, 1, 77, 255, 128], b < 256) ∧
    base64ToUint8Array (uint8ArrayToBase64 [0, 1, 77, 255, 128]) =
      some [0, 1, 77, 255, 128] :=
  ⟨by decide, base64_roundTrip [0, 1, 77, 255, 128] (by decide)⟩

end Dashsy.Db
